import Mathlib

/-!
# Entity / component storage of `Entity.hpp`

A shallow embedding of `ecs::Entity`, `ecs::ComponentData<T>`, the two
`ecs::System` implementations and `ecs::EntityMap`.

* `uint16_t` and `uint64_t` values are natural numbers; every place where the
  source stores into such a field reduces explicitly modulo `2 ^ 16` or `2 ^ 64`.
* `std::vector<T>` is `List T`.
* The raw array `Entity lookup_[UINT16_MAX]` is a function `Nat → Entity` of which
  only the entries below `UINT16_MAX` exist.  Every operation that subscripts the
  array with an index outside of it has undefined behaviour, which the embedding
  renders as the result `none`.
* A `T*` into `instances` is a `Ptr`: either `nullptr` or the address of a position
  of `instances` (which the source computes without a bounds check).
-/

namespace ecs

/-- The constant `UINT16_MAX` of `<cstdint>`. -/
def UINT16_MAX : Nat := 65535

/-- Number of values of a `uint16_t`. -/
def U16 : Nat := 65536

/-- Number of values of a `uint64_t`. -/
def U64 : Nat := 2 ^ 64

/-- The struct `Entity`: three `uint16_t` fields. -/
structure Entity where
  id : Nat
  index : Nat
  generation : Nat
deriving DecidableEq

/-- A value of type `T*` pointing into `instances`. -/
inductive Ptr where
  | nullptr : Ptr
  | elem (i : Nat) : Ptr
deriving DecidableEq

/-- The struct `ComponentData<T>`: the vector `instances` and the array `lookup_`. -/
structure ComponentData (T : Type) where
  instances : List T
  lookup_ : Nat → Entity

namespace ComponentData

variable {T : Type}

/-- The constructor `ComponentData()`: every table entry gets its own id, the index
`UINT16_MAX` and the generation `UINT16_MAX`. -/
def new : ComponentData T :=
  { instances := []
    lookup_ := fun e => { id := e, index := UINT16_MAX, generation := UINT16_MAX } }

/-- The method `get`.  The outer `none` is the out-of-bounds subscript of `lookup_`. -/
def get (s : ComponentData T) (entity : Entity) : Option Ptr :=
  if entity.id < UINT16_MAX then
    let lookup := s.lookup_ entity.id
    if lookup.generation ≠ entity.generation then
      some Ptr.nullptr
    else
      some (if lookup.index < UINT16_MAX then Ptr.elem lookup.index else Ptr.nullptr)
  else
    none

/-- The method `has_component`. -/
def has_component (s : ComponentData T) (entity : Entity) : Option Bool :=
  if entity.id < UINT16_MAX then
    let lookup := s.lookup_ entity.id
    if lookup.generation ≠ entity.generation then
      some false
    else
      some (decide (lookup.index < s.instances.length) && decide (lookup.index < UINT16_MAX))
  else
    none

/-- Reading through a pointer returned by `get`: `*p`.  Undefined for `nullptr` and
for an address past the end of `instances`. -/
def deref (s : ComponentData T) : Ptr → Option T
  | Ptr.nullptr => none
  | Ptr.elem i => s.instances[i]?

/-- Writing through a pointer returned by `get`: `*p = v`. -/
def assign (s : ComponentData T) (p : Ptr) (v : T) : Option (ComponentData T) :=
  match p with
  | Ptr.nullptr => none
  | Ptr.elem i =>
    if i < s.instances.length then
      some { s with instances := s.instances.set i v }
    else
      none

/-- The method `attach`: `emplace_back()`, then the new entity is written to the
table and returned.  `e.index = instances.size() - 1` narrows to `uint16_t`. -/
def attach [Inhabited T] (s : ComponentData T) (entity : Entity) :
    Option (ComponentData T × Entity) :=
  let instances := s.instances ++ [default]
  let e : Entity :=
    { index := (instances.length - 1) % U16
      id := entity.id
      generation := entity.generation }
  if e.id < UINT16_MAX then
    some ({ instances := instances, lookup_ := Function.update s.lookup_ e.id e }, e)
  else
    none

/-- The call `std::swap(instances[i], instances[j])`. -/
def swap (l : List T) (i j : Nat) : List T :=
  match l[i]?, l[j]? with
  | some a, some b => (l.set i b).set j a
  | _, _ => l

/-- The method `detach`.  The local `index` of the source is read and never used.
`*get(entity)` is undefined when `get` returns `nullptr` or an address past the end;
otherwise the element is swapped with `instances.back()`, the vector is popped and
the index recorded for `entity.id` becomes `UINT16_MAX`. -/
def detach (s : ComponentData T) (entity : Entity) : Option (ComponentData T) :=
  match s.get entity with
  | some (Ptr.elem i) =>
    if i < s.instances.length then
      let swapped := swap s.instances i (s.instances.length - 1)
      let popped := swapped.dropLast
      some
        { instances := popped
          lookup_ := Function.update s.lookup_ entity.id
            { s.lookup_ entity.id with index := UINT16_MAX } }
    else
      none
  | _ => none

end ComponentData

/-- The keys of `systems_`: the `std::type_index` of the two classes derived from
`System`. -/
inductive TypeIndex where
  | SpriteSystem : TypeIndex
  | CollisionSystem : TypeIndex
deriving DecidableEq

/-- An object of a class derived from `System`: a `SpriteSystem` with its `spriteData`
or a `CollisionSystem` with its `boxes`.  The payload types `sf::Sprite` and
`sf::FloatRect` are parameters. -/
inductive System (Sprite FloatRect : Type) where
  | SpriteSystem (spriteData : ComponentData Sprite) : System Sprite FloatRect
  | CollisionSystem (boxes : ComponentData FloatRect) : System Sprite FloatRect

namespace System

variable {Sprite FloatRect : Type}

/-- The object `std::make_unique<T>()` builds. -/
def make (k : TypeIndex) : System Sprite FloatRect :=
  match k with
  | TypeIndex.SpriteSystem => System.SpriteSystem ComponentData.new
  | TypeIndex.CollisionSystem => System.CollisionSystem ComponentData.new

/-- The virtual method `add`. -/
def add [Inhabited Sprite] [Inhabited FloatRect] (sys : System Sprite FloatRect)
    (entity : Entity) : Option (System Sprite FloatRect) :=
  match sys with
  | System.SpriteSystem d => (d.attach entity).map fun r => System.SpriteSystem r.1
  | System.CollisionSystem d => (d.attach entity).map fun r => System.CollisionSystem r.1

/-- The virtual method `remove`. -/
def remove (sys : System Sprite FloatRect) (entity : Entity) :
    Option (System Sprite FloatRect) :=
  match sys with
  | System.SpriteSystem d => (d.detach entity).map System.SpriteSystem
  | System.CollisionSystem d => (d.detach entity).map System.CollisionSystem

/-- The virtual method `has_entity`. -/
def has_entity (sys : System Sprite FloatRect) (entity : Entity) : Option Bool :=
  match sys with
  | System.SpriteSystem d => d.has_component entity
  | System.CollisionSystem d => d.has_component entity

/-- The lookup table of the store the system owns. -/
def lookup_ (sys : System Sprite FloatRect) : Nat → Entity :=
  match sys with
  | System.SpriteSystem d => d.lookup_
  | System.CollisionSystem d => d.lookup_

/-- The number of instances in the store the system owns. -/
def count (sys : System Sprite FloatRect) : Nat :=
  match sys with
  | System.SpriteSystem d => d.instances.length
  | System.CollisionSystem d => d.instances.length

/-- The method `get` of the store the system owns. -/
def get (sys : System Sprite FloatRect) (entity : Entity) : Option Ptr :=
  match sys with
  | System.SpriteSystem d => d.get entity
  | System.CollisionSystem d => d.get entity

end System

/-- The class `EntityMap`.  An entry of `systems_` is absent (`none`), holds a null
`unique_ptr` (`some none`, what `operator[]` inserts for a missing key) or owns a
system.  `tags_` is the map from tag to entity. -/
structure EntityMap (Sprite FloatRect : Type) where
  systems_ : TypeIndex → Option (Option (System Sprite FloatRect))
  tags_ : String → Option Entity
  nextId_ : Nat
  currentGeneration_ : Nat
  size_ : Nat

namespace EntityMap

variable {Sprite FloatRect : Type}

/-- The constructor `EntityMap()`. -/
def new : EntityMap Sprite FloatRect :=
  { systems_ := fun _ => none
    tags_ := fun _ => none
    nextId_ := 0
    currentGeneration_ := 0
    size_ := 0 }

/-- The private method `get_entity`: both counters are `uint16_t`. -/
def get_entity (m : EntityMap Sprite FloatRect) : EntityMap Sprite FloatRect × Entity :=
  let nextId := (m.nextId_ + 1) % U16
  let currentGeneration :=
    if nextId = 0 then (m.currentGeneration_ + 1) % U16 else m.currentGeneration_
  let e : Entity := { id := nextId, index := UINT16_MAX, generation := currentGeneration }
  ({ m with nextId_ := nextId, currentGeneration_ := currentGeneration }, e)

/-- The method `create()`. -/
def create (m : EntityMap Sprite FloatRect) : EntityMap Sprite FloatRect × Entity :=
  get_entity { m with size_ := (m.size_ + 1) % U64 }

/-- The method `create(const std::string& tag)`. -/
def create_tagged (m : EntityMap Sprite FloatRect) (tag : String) :
    EntityMap Sprite FloatRect × Entity :=
  let r := m.create
  ({ r.1 with tags_ := Function.update r.1.tags_ tag (some r.2) }, r.2)

/-- The method `get_tagged_entity`: `tags_[tag]` inserts a value-initialised entity
for a tag that has no binding and returns it. -/
def get_tagged_entity (m : EntityMap Sprite FloatRect) (tag : String) :
    EntityMap Sprite FloatRect × Entity :=
  match m.tags_ tag with
  | some e => (m, e)
  | none =>
    let e : Entity := { id := 0, index := 0, generation := 0 }
    ({ m with tags_ := Function.update m.tags_ tag (some e) }, e)

/-- The method `get_system<T>`: `systems_[typeid(T)].get()`, which inserts a null
pointer for a type that has no entry. -/
def get_system (m : EntityMap Sprite FloatRect) (k : TypeIndex) :
    EntityMap Sprite FloatRect × Option (System Sprite FloatRect) :=
  match m.systems_ k with
  | some p => (m, p)
  | none => ({ m with systems_ := Function.update m.systems_ k (some none) }, none)

/-- The method `add_system<T>`: `emplace` inserts only when the key has no entry. -/
def add_system (m : EntityMap Sprite FloatRect) (k : TypeIndex) :
    EntityMap Sprite FloatRect × Option (System Sprite FloatRect) :=
  let m1 : EntityMap Sprite FloatRect :=
    match m.systems_ k with
    | some _ => m
    | none => { m with systems_ := Function.update m.systems_ k (some (some (System.make k))) }
  m1.get_system k

/-- The method `attach<T>`: `systems_[typeid(T)]->add(entity)`. -/
def attach [Inhabited Sprite] [Inhabited FloatRect] (m : EntityMap Sprite FloatRect)
    (k : TypeIndex) (entity : Entity) : Option (EntityMap Sprite FloatRect) :=
  match m.systems_ k with
  | some (some sys) =>
    (sys.add entity).map fun sys1 =>
      { m with systems_ := Function.update m.systems_ k (some (some sys1)) }
  | _ => none

/-- The method `remove<T>`: `systems_[typeid(T)]->remove(entity)`. -/
def remove (m : EntityMap Sprite FloatRect) (k : TypeIndex) (entity : Entity) :
    Option (EntityMap Sprite FloatRect) :=
  match m.systems_ k with
  | some (some sys) =>
    (sys.remove entity).map fun sys1 =>
      { m with systems_ := Function.update m.systems_ k (some (some sys1)) }
  | _ => none

/-- The method `belongs_to<T>`: `systems_[typeid(T)]->has_entity(entity)`. -/
def belongs_to (m : EntityMap Sprite FloatRect) (k : TypeIndex) (entity : Entity) :
    Option Bool :=
  match m.systems_ k with
  | some (some sys) => sys.has_entity entity
  | _ => none

/-- One iteration of the loop of `destroy`, for the entry stored under `k`. -/
def destroy_entry (entity : Entity)
    (acc : Option (TypeIndex → Option (Option (System Sprite FloatRect))))
    (k : TypeIndex) : Option (TypeIndex → Option (Option (System Sprite FloatRect))) :=
  acc.bind fun systems =>
    match systems k with
    | none => some systems
    | some none => none
    | some (some sys) =>
      (sys.remove entity).map fun sys1 => Function.update systems k (some (some sys1))

/-- The method `destroy`: `size_--`, then `remove` on every entry of `systems_`. -/
def destroy (m : EntityMap Sprite FloatRect) (entity : Entity) :
    Option (EntityMap Sprite FloatRect) :=
  let size := (m.size_ + U64 - 1) % U64
  ([TypeIndex.SpriteSystem, TypeIndex.CollisionSystem].foldl (destroy_entry entity)
    (some m.systems_)).map fun systems => { m with systems_ := systems, size_ := size }

/-- The method `size`. -/
def size (m : EntityMap Sprite FloatRect) : Nat := m.size_

end EntityMap

/-! ## Sequences of calls -/

/-- A call of a public method of `EntityMap`. -/
inductive Call where
  | add_system (k : TypeIndex) : Call
  | get_system (k : TypeIndex) : Call
  | create : Call
  | create_tagged (tag : String) : Call
  | destroy (entity : Entity) : Call
  | get_tagged_entity (tag : String) : Call
  | attach (k : TypeIndex) (entity : Entity) : Call
  | remove (k : TypeIndex) (entity : Entity) : Call
  | belongs_to (k : TypeIndex) (entity : Entity) : Call
deriving DecidableEq

namespace EntityMap

variable {Sprite FloatRect : Type}

/-- The registry after one call, with the handle the call returned when it is one of
the two `create` overloads.  A call with undefined behaviour gives `none`. -/
def call [Inhabited Sprite] [Inhabited FloatRect] (m : EntityMap Sprite FloatRect) :
    Call → Option (EntityMap Sprite FloatRect × List Entity)
  | Call.add_system k => some ((m.add_system k).1, [])
  | Call.get_system k => some ((m.get_system k).1, [])
  | Call.create => some (m.create.1, [m.create.2])
  | Call.create_tagged tag => some ((m.create_tagged tag).1, [(m.create_tagged tag).2])
  | Call.destroy entity => (m.destroy entity).map fun m1 => (m1, [])
  | Call.get_tagged_entity tag => some ((m.get_tagged_entity tag).1, [])
  | Call.attach k entity => (m.attach k entity).map fun m1 => (m1, [])
  | Call.remove k entity => (m.remove k entity).map fun m1 => (m1, [])
  | Call.belongs_to k entity => (m.belongs_to k entity).map fun _ => (m, [])

/-- The registry after a sequence of calls, with the handles the `create` calls
returned, in order. -/
def run [Inhabited Sprite] [Inhabited FloatRect] (m : EntityMap Sprite FloatRect) :
    List Call → Option (EntityMap Sprite FloatRect × List Entity)
  | [] => some (m, [])
  | c :: cs =>
    (m.call c).bind fun r => (run r.1 cs).map fun r2 => (r2.1, r.2 ++ r2.2)

/-- The registry after `n` consecutive calls of `create()`. -/
def create_n (m : EntityMap Sprite FloatRect) : Nat → EntityMap Sprite FloatRect
  | 0 => m
  | n + 1 => create_n m.create.1 n

end EntityMap

namespace Call

/-- The call is one of the two `create` overloads. -/
def is_create : Call → Bool
  | Call.create => true
  | Call.create_tagged _ => true
  | _ => false

/-- The call is a `destroy`. -/
def is_destroy : Call → Bool
  | Call.destroy _ => true
  | _ => false

end Call

namespace EntityMap

variable {Sprite FloatRect : Type}

/-- The loop of `setup_dod` in `Main.cpp`, for `n` iterations: `create()`, then
`attach<SpriteSystem>` and `attach<CollisionSystem>` of the new entity.  The writes to
the two payloads that follow in the loop body are left out. -/
def setup_dod_loop [Inhabited Sprite] [Inhabited FloatRect] (m : EntityMap Sprite FloatRect) :
    Nat → Option (EntityMap Sprite FloatRect)
  | 0 => some m
  | n + 1 =>
    let r := m.create
    (r.1.attach TypeIndex.SpriteSystem r.2).bind fun m1 =>
      (m1.attach TypeIndex.CollisionSystem r.2).bind fun m2 => setup_dod_loop m2 n

/-- The function `setup_dod` of `Main.cpp`: both systems are added, then the loop runs
`numEntities` times. -/
def setup_dod [Inhabited Sprite] [Inhabited FloatRect] (m : EntityMap Sprite FloatRect)
    (numEntities : Nat) : Option (EntityMap Sprite FloatRect) :=
  let m1 := (m.add_system TypeIndex.SpriteSystem).1
  let m2 := (m1.add_system TypeIndex.CollisionSystem).1
  m2.setup_dod_loop numEntities

/-- Both systems of `setup_dod` are registered. -/
def Registered (m : EntityMap Sprite FloatRect) : Prop :=
  (∃ sys, m.systems_ TypeIndex.SpriteSystem = some (some sys)) ∧
    ∃ sys, m.systems_ TypeIndex.CollisionSystem = some (some sys)

end EntityMap

/-- The handle the specification gives for the `k`-th call of `create` on a fresh
registry: id `k mod 65536`, sentinel index, generation `floor (k / 65536) mod 65536`. -/
def kth_handle (k : Nat) : Entity :=
  { id := k % 65536, index := 65535, generation := k / 65536 % 65536 }

/-- The two counters of the registry are the ones reached after `c` allocations. -/
def Counted {Sprite FloatRect : Type} (m : EntityMap Sprite FloatRect) (c : Nat) : Prop :=
  m.nextId_ = c % 65536 ∧ m.currentGeneration_ = c / 65536 % 65536

/-- The states of a store that `attach` and `detach` calls reach from the constructor. -/
inductive Reachable {T : Type} [Inhabited T] : ComponentData T → Prop where
  | new : Reachable ComponentData.new
  | attach (h : Entity) {s s1 : ComponentData T} {e : Entity} :
      Reachable s → s.attach h = some (s1, e) → Reachable s1
  | detach (h : Entity) {s s1 : ComponentData T} :
      Reachable s → s.detach h = some s1 → Reachable s1

/-- The states of a store reached from the constructor when `attach` is only called for
an id whose table entry holds the sentinel index and `detach` only for a handle for which
`has_component` is true. -/
inductive Disciplined {T : Type} [Inhabited T] : ComponentData T → Prop where
  | new : Disciplined ComponentData.new
  | attach (h : Entity) {s s1 : ComponentData T} {e : Entity} :
      Disciplined s → (s.lookup_ h.id).index = UINT16_MAX →
      s.attach h = some (s1, e) → Disciplined s1
  | detach (h : Entity) {s s1 : ComponentData T} :
      Disciplined s → s.has_component h = some true →
      s.detach h = some s1 → Disciplined s1

/-! ## Scenarios -/

/-- The first handle a fresh registry issues. -/
def entityA : Entity := { id := 1, index := UINT16_MAX, generation := 0 }

/-- The second handle a fresh registry issues. -/
def entityB : Entity := { id := 2, index := UINT16_MAX, generation := 0 }

/-- A store of numbers that holds the component `7` for id `3` under generation `0`. -/
def one_attached : ComponentData Nat :=
  { instances := [7]
    lookup_ := Function.update (ComponentData.new : ComponentData Nat).lookup_ 3
      { id := 3, index := 0, generation := 0 } }

/-- A fresh store of numbers to which `entityA` and then `entityB` are attached; the
component of `entityA` is set to `10` and the one of `entityB` to `20`. -/
def two_attached : Option (ComponentData Nat) := do
  let r1 ← ComponentData.new.attach entityA
  let r2 ← r1.1.attach entityB
  let pa ← r2.1.get entityA
  let s3 ← r2.1.assign pa 10
  let pb ← s3.get entityB
  s3.assign pb 20

/-- The store `two_attached` after `detach(entityA)`. -/
def two_attached_detach_A : Option (ComponentData Nat) :=
  two_attached.bind fun s => s.detach entityA

/-- A fresh store after `attach(entityA)`, `attach(entityB)`, `detach(entityA)`. -/
def attach_attach_detach : Option (ComponentData Unit) := do
  let r1 ← ComponentData.new.attach entityA
  let r2 ← r1.1.attach entityB
  r2.1.detach entityA

/-- A fresh registry with a `SpriteSystem`, whose first entity is attached to it. -/
def before_wrap : Option (EntityMap Unit Unit) :=
  let m0 : EntityMap Unit Unit := (EntityMap.new.add_system TypeIndex.SpriteSystem).1
  m0.create.1.attach TypeIndex.SpriteSystem m0.create.2

/-- The registry `before_wrap` after `65536` further calls of `create()`. -/
def after_wrap : Option (EntityMap Unit Unit) :=
  before_wrap.map fun m => m.create_n 65536

/-- A short session on a fresh registry, with a `destroy` between two `create` calls. -/
def session : List Call :=
  [Call.add_system TypeIndex.SpriteSystem, Call.create,
   Call.attach TypeIndex.SpriteSystem entityA, Call.create_tagged "player",
   Call.destroy entityA, Call.create]

/-- A store of numbers that holds `10`, `20`, `30` for the ids `1`, `2`, `3`, all under
generation `0`. -/
def three_attached : ComponentData Nat :=
  { instances := [10, 20, 30]
    lookup_ :=
      Function.update
        (Function.update
          (Function.update (ComponentData.new : ComponentData Nat).lookup_ 1
            { id := 1, index := 0, generation := 0 })
          2 { id := 2, index := 1, generation := 0 })
        3 { id := 3, index := 2, generation := 0 } }

/-- A store with `65535` instances and the table of a fresh store. -/
def full_store : ComponentData Unit :=
  { instances := List.replicate 65535 ()
    lookup_ := (ComponentData.new : ComponentData Unit).lookup_ }

/-- A fresh registry on which only `create("player")` was called. -/
def only_player : EntityMap Unit Unit :=
  (EntityMap.new.create_tagged "player").1

/-- A fresh registry with a `SpriteSystem` and one entity that is attached to nothing. -/
def never_attached : EntityMap Unit Unit :=
  ((EntityMap.new.add_system TypeIndex.SpriteSystem).1).create.1

/-- The registry `before_wrap` after `destroy(entityA)`. -/
def destroyed_once : Option (EntityMap Unit Unit) :=
  before_wrap.bind fun m => m.destroy entityA

/-- The registry `destroyed_once` after a second `destroy(entityA)`. -/
def destroyed_twice : Option (EntityMap Unit Unit) :=
  destroyed_once.bind fun m => m.destroy entityA

/-- The registry `before_wrap` after a second `add_system<SpriteSystem>()`, with the
pointer that call returns. -/
def registered_twice : Option (EntityMap Unit Unit × Option (System Unit Unit)) :=
  before_wrap.map fun m => m.add_system TypeIndex.SpriteSystem

/-! ## Lemmas on the component store -/

section Store

variable {T : Type}

theorem swap_length (l : List T) (i j : Nat) :
    (ComponentData.swap l i j).length = l.length := by
  unfold ComponentData.swap
  split <;> simp

theorem has_component_true_iff (s : ComponentData T) (h : Entity) :
    s.has_component h = some true ↔
      h.id < UINT16_MAX ∧ (s.lookup_ h.id).generation = h.generation ∧
        (s.lookup_ h.id).index < s.instances.length ∧ (s.lookup_ h.id).index < UINT16_MAX := by
  unfold ComponentData.has_component
  by_cases hid : h.id < UINT16_MAX
  · by_cases hg : (s.lookup_ h.id).generation = h.generation
    · simp [hid, hg]
    · simp [hid, hg]
  · simp [hid]

theorem attach_eq [Inhabited T] (s : ComponentData T) (h : Entity)
    (hn : s.instances.length < UINT16_MAX) (hid : h.id < UINT16_MAX) :
    s.attach h = some
      ({ instances := s.instances ++ [default]
         lookup_ := Function.update s.lookup_ h.id
           { id := h.id, index := s.instances.length, generation := h.generation } },
       { id := h.id, index := s.instances.length, generation := h.generation }) := by
  have hmod : s.instances.length % U16 = s.instances.length :=
    Nat.mod_eq_of_lt (by unfold UINT16_MAX at hn; unfold U16; omega)
  simp [ComponentData.attach, hid, hmod]

end Store

/-! ## Lemmas on the allocation counters -/

section Counters

variable {Sprite FloatRect : Type}

theorem counted_new : Counted (EntityMap.new : EntityMap Sprite FloatRect) 0 := by
  simp [Counted, EntityMap.new]

theorem counted_get_entity {m : EntityMap Sprite FloatRect} {c : Nat} (h : Counted m c) :
    Counted m.get_entity.1 (c + 1) ∧ m.get_entity.2 = kth_handle (c + 1) := by
  obtain ⟨h1, h2⟩ := h
  have e1 : (c % 65536 + 1) % 65536 = (c + 1) % 65536 := by omega
  have e2 : (if (c + 1) % 65536 = 0 then (c / 65536 % 65536 + 1) % 65536
      else c / 65536 % 65536) = (c + 1) / 65536 % 65536 := by
    split <;> omega
  simp only [Counted, EntityMap.get_entity, kth_handle, U16, UINT16_MAX, h1, h2, e1, e2]
  simp

theorem counted_create {m : EntityMap Sprite FloatRect} {c : Nat} (h : Counted m c) :
    Counted m.create.1 (c + 1) ∧ m.create.2 = kth_handle (c + 1) := by
  have h0 : Counted ({ m with size_ := (m.size_ + 1) % U64 } : EntityMap Sprite FloatRect) c := h
  exact counted_get_entity h0

theorem counted_call [Inhabited Sprite] [Inhabited FloatRect]
    {m m1 : EntityMap Sprite FloatRect} {c : Nat} {call : Call} {hs : List Entity}
    (h : Counted m c) (hc : m.call call = some (m1, hs)) :
    Counted m1 (c + hs.length) ∧
      ∀ i, i < hs.length → hs[i]? = some (kth_handle (c + i + 1)) := by
  cases call with
  | add_system k =>
    simp only [EntityMap.call, Option.some.injEq, Prod.mk.injEq] at hc
    obtain ⟨rfl, rfl⟩ := hc
    refine ⟨?_, by simp⟩
    simp only [EntityMap.add_system, EntityMap.get_system]
    split <;> split <;> exact h
  | get_system k =>
    simp only [EntityMap.call, Option.some.injEq, Prod.mk.injEq] at hc
    obtain ⟨rfl, rfl⟩ := hc
    refine ⟨?_, by simp⟩
    simp only [EntityMap.get_system]
    split <;> exact h
  | create =>
    simp only [EntityMap.call, Option.some.injEq, Prod.mk.injEq] at hc
    obtain ⟨rfl, rfl⟩ := hc
    refine ⟨(counted_create h).1, ?_⟩
    intro i hi
    have : i = 0 := by simpa using hi
    subst this
    simp [(counted_create h).2]
  | create_tagged tag =>
    simp only [EntityMap.call, Option.some.injEq, Prod.mk.injEq] at hc
    obtain ⟨rfl, rfl⟩ := hc
    refine ⟨(counted_create h).1, ?_⟩
    intro i hi
    have : i = 0 := by simpa using hi
    subst this
    simp [EntityMap.create_tagged, (counted_create h).2]
  | destroy entity =>
    simp only [EntityMap.call, Option.map_eq_some', Prod.mk.injEq] at hc
    obtain ⟨m2, hd, rfl, rfl⟩ := hc
    refine ⟨?_, by simp⟩
    simp only [EntityMap.destroy, Option.map_eq_some'] at hd
    obtain ⟨sys, -, rfl⟩ := hd
    exact h
  | get_tagged_entity tag =>
    simp only [EntityMap.call, Option.some.injEq, Prod.mk.injEq] at hc
    obtain ⟨rfl, rfl⟩ := hc
    refine ⟨?_, by simp⟩
    simp only [EntityMap.get_tagged_entity]
    split <;> exact h
  | attach k entity =>
    simp only [EntityMap.call, Option.map_eq_some', Prod.mk.injEq] at hc
    obtain ⟨m2, hd, rfl, rfl⟩ := hc
    refine ⟨?_, by simp⟩
    simp only [EntityMap.attach] at hd
    split at hd
    · simp only [Option.map_eq_some'] at hd
      obtain ⟨sys, -, rfl⟩ := hd
      exact h
    · exact absurd hd (by simp)
  | remove k entity =>
    simp only [EntityMap.call, Option.map_eq_some', Prod.mk.injEq] at hc
    obtain ⟨m2, hd, rfl, rfl⟩ := hc
    refine ⟨?_, by simp⟩
    simp only [EntityMap.remove] at hd
    split at hd
    · simp only [Option.map_eq_some'] at hd
      obtain ⟨sys, -, rfl⟩ := hd
      exact h
    · exact absurd hd (by simp)
  | belongs_to k entity =>
    simp only [EntityMap.call, Option.map_eq_some', Prod.mk.injEq] at hc
    obtain ⟨b, -, rfl, rfl⟩ := hc
    exact ⟨h, by simp⟩

theorem counted_run [Inhabited Sprite] [Inhabited FloatRect] (cs : List Call) :
    ∀ {m m1 : EntityMap Sprite FloatRect} {c : Nat} {hs : List Entity},
      Counted m c → m.run cs = some (m1, hs) →
      Counted m1 (c + hs.length) ∧
        ∀ i, i < hs.length → hs[i]? = some (kth_handle (c + i + 1)) := by
  induction cs with
  | nil =>
    intro m m1 c hs h hr
    simp only [EntityMap.run, Option.some.injEq, Prod.mk.injEq] at hr
    obtain ⟨rfl, rfl⟩ := hr
    exact ⟨h, by simp⟩
  | cons a cs ih =>
    intro m m1 c hs h hr
    simp only [EntityMap.run, Option.bind_eq_some, Option.map_eq_some', Prod.mk.injEq] at hr
    obtain ⟨⟨m2, hs1⟩, hcall, ⟨m3, hs2⟩, hrun, rfl, rfl⟩ := hr
    obtain ⟨hc1, hk1⟩ := counted_call h hcall
    obtain ⟨hc2, hk2⟩ := ih hc1 hrun
    refine ⟨?_, ?_⟩
    · simpa [Nat.add_assoc] using hc2
    · intro i hi
      by_cases hlt : i < hs1.length
      · rw [List.getElem?_append_left hlt]
        exact hk1 i hlt
      · have hge : hs1.length ≤ i := Nat.le_of_not_lt hlt
        rw [List.getElem?_append_right hge]
        have hi2 : i - hs1.length < hs2.length := by
          simp only [List.length_append] at hi
          omega
        rw [hk2 _ hi2]
        congr 2
        omega

/-- The handles a run from a fresh registry collects are the ones of the formula. -/
theorem run_new_handles [Inhabited Sprite] [Inhabited FloatRect] (cs : List Call)
    (hs : List Entity)
    (hrun : ((EntityMap.new : EntityMap Sprite FloatRect).run cs).map Prod.snd = some hs)
    (k : Nat) (e : Entity) (hk : 1 ≤ k) (he : hs[k - 1]? = some e) :
    e = kth_handle k := by
  simp only [Option.map_eq_some'] at hrun
  obtain ⟨⟨m1, hs1⟩, hr, heq⟩ := hrun
  have heq : hs1 = hs := heq
  subst heq
  obtain ⟨-, hall⟩ := counted_run cs counted_new hr
  have hi : k - 1 < hs1.length := by
    rcases Nat.lt_or_ge (k - 1) hs1.length with h | h
    · exact h
    · rw [List.getElem?_eq_none h] at he; exact absurd he (by simp)
  have := hall (k - 1) hi
  rw [he] at this
  have e2 : 0 + (k - 1) + 1 = k := by omega
  rw [e2] at this
  simpa using this

theorem create_n_systems (n : Nat) :
    ∀ m : EntityMap Sprite FloatRect, (m.create_n n).systems_ = m.systems_ := by
  induction n with
  | zero => intro m; rfl
  | succ n ih => intro m; simp only [EntityMap.create_n]; rw [ih]; rfl

theorem counted_create_n (n : Nat) :
    ∀ {m : EntityMap Sprite FloatRect} {c : Nat},
      Counted m c → Counted (m.create_n n) (c + n) := by
  induction n with
  | zero => intro m c h; exact h
  | succ n ih =>
    intro m c h
    simp only [EntityMap.create_n]
    have := ih (counted_create h).1
    rwa [Nat.add_assoc, Nat.add_comm 1 n] at this

theorem create_n_last (Sprite FloatRect : Type) (n : Nat) :
    (((EntityMap.new : EntityMap Sprite FloatRect).create_n n).create).2 = kth_handle (n + 1) := by
  have h := counted_create_n n
    (counted_new : Counted (EntityMap.new : EntityMap Sprite FloatRect) 0)
  rw [Nat.zero_add] at h
  exact (counted_create h).2

end Counters

/-! ## The claims -/

section Claims

variable {T Sprite FloatRect : Type}

/-- C1 (the code departs from it): after `attach(A)`, `attach(B)` on a fresh store, with
`10` written to the component of `A` and `20` to the one of `B`, `detach(A)` moves `20`
to position `0` and shrinks `instances` to one element, but the index recorded for `B`
stays `1`: `get(B)` is the address one past the end, reading it is undefined, and
`has_component(B)` is false. -/
theorem detach_leaves_moved_entity_stale :
    two_attached.map (fun s =>
        (s.instances, (s.lookup_ 1).index, (s.lookup_ 2).index, (s.get entityB).bind s.deref)) =
      some ([10, 20], 0, 1, some 20) ∧
    two_attached_detach_A.map (fun s =>
        (s.instances, (s.lookup_ 2).index, s.get entityB, (s.get entityB).bind s.deref,
          s.has_component entityB, s.get entityA)) =
      some ([20], 1, some (Ptr.elem 1), none, some false, some Ptr.nullptr) := by
  constructor <;> rfl

/-- C2: when `has_component(h)` is true, `detach(h)` is defined, records the sentinel
`65535` as the index of `h.id`, after which `get(h)` is `nullptr` and `has_component(h)`
is false, and `instances` is one element shorter. -/
theorem detach_marks_empty (s : ComponentData T) (h : Entity)
    (hc : s.has_component h = some true) :
    h.id < 65535 ∧
    ∃ s1, s.detach h = some s1 ∧ (s1.lookup_ h.id).index = 65535 ∧
      s1.get h = some Ptr.nullptr ∧ s1.has_component h = some false ∧
      s1.instances.length + 1 = s.instances.length := by
  obtain ⟨hid, hg, hlt, hs⟩ := (has_component_true_iff s h).1 hc
  refine ⟨hid, ?_⟩
  have hpos : 0 < s.instances.length := by omega
  simp [ComponentData.detach, ComponentData.get, ComponentData.has_component, hid, hg, hlt, hs,
    swap_length]
  refine ⟨rfl, ?_⟩
  omega

/-- An instance on `one_attached`, for the handle it holds. -/
theorem detach_marks_empty_witness :
    one_attached.has_component (Entity.mk 3 0 0) = some true ∧
    (3 < 65535 ∧
      ∃ s1, one_attached.detach (Entity.mk 3 0 0) = some s1 ∧
        (s1.lookup_ 3).index = 65535 ∧
        s1.get (Entity.mk 3 0 0) = some Ptr.nullptr ∧
        s1.has_component (Entity.mk 3 0 0) = some false ∧
        s1.instances.length + 1 = one_attached.instances.length) :=
  ⟨by decide, detach_marks_empty one_attached (Entity.mk 3 0 0) (by decide)⟩

/-- C3: when the generation recorded in `lookup_[h.id]` differs from `h.generation`,
`get(h)` is `nullptr` and `has_component(h)` is false, for any recorded index and any
content of `instances`. -/
theorem get_generation_mismatch (s : ComponentData T) (h : Entity)
    (hid : h.id < 65535) (hg : (s.lookup_ h.id).generation ≠ h.generation) :
    s.get h = some Ptr.nullptr ∧ s.has_component h = some false := by
  have hid2 : h.id < UINT16_MAX := hid
  simp [ComponentData.get, ComponentData.has_component, hid2, hg]

/-- An instance on `one_attached`, for a handle of id `3` and generation `1`. -/
theorem get_generation_mismatch_witness :
    (3 < 65535 ∧ (one_attached.lookup_ 3).generation ≠ 1) ∧
    (one_attached.get (Entity.mk 3 0 1) = some Ptr.nullptr ∧
      one_attached.has_component (Entity.mk 3 0 1) = some false) :=
  ⟨⟨by decide, by decide⟩,
    get_generation_mismatch one_attached (Entity.mk 3 0 1) (by decide) (by decide)⟩

/-- C4 (the code departs from it): the store reached from a fresh one by `attach(A)`,
`attach(B)`, `detach(A)` holds one element and still records index `1` for `B`, so
`get(B)` is not `nullptr` while `has_component(B)` is false. -/
theorem has_component_get_disagree :
    ∃ s, attach_attach_detach = some s ∧ Reachable s ∧
      s.instances.length = 1 ∧
      s.has_component entityB = some false ∧ s.get entityB = some (Ptr.elem 1) ∧
      s.deref (Ptr.elem 1) = none := by
  refine ⟨_, rfl, Reachable.detach entityA (Reachable.attach entityB
    (Reachable.attach entityA Reachable.new rfl) rfl) rfl, ?_, ?_, ?_, ?_⟩ <;> rfl

/-- C5: on a store with fewer than `65535` instances, `attach(h)` with `h.id < 65535`
succeeds; right after it `get(h)` is the address of the last position, which holds
the default-constructed element, `has_component(h)` is true, and after a value is
written through that pointer `get(h)` is the same address and reads that value. -/
theorem attach_get_round_trip [Inhabited T] (s : ComponentData T) (h : Entity)
    (hn : s.instances.length < 65535) (hid : h.id < 65535) :
    ∃ s1 e, s.attach h = some (s1, e) ∧
      s1.get h = some (Ptr.elem s.instances.length) ∧
      s1.deref (Ptr.elem s.instances.length) = some default ∧
      s1.instances.getLast? = some default ∧
      s1.instances.length = s.instances.length + 1 ∧
      s1.has_component h = some true ∧
      ∀ v : T, ∃ s2, s1.assign (Ptr.elem s.instances.length) v = some s2 ∧
        s2.get h = some (Ptr.elem s.instances.length) ∧
        s2.deref (Ptr.elem s.instances.length) = some v := by
  have hn2 : s.instances.length < UINT16_MAX := hn
  have hid2 : h.id < UINT16_MAX := hid
  refine ⟨_, _, attach_eq s h hn2 hid2, ?_, ?_, ?_, ?_, ?_, ?_⟩
  · simp [ComponentData.get, hid2, hn2]
  · simp [ComponentData.deref]
  · simp
  · simp
  · simp [ComponentData.has_component, hid2, hn2]
  · intro v
    simp [ComponentData.assign, ComponentData.get, ComponentData.deref, hid2, hn2]

/-- An instance on `one_attached`, for a new handle of id `5`. -/
theorem attach_get_round_trip_witness :
    (one_attached.instances.length < 65535 ∧ 5 < 65535) ∧
    ∃ s1 e, one_attached.attach (Entity.mk 5 65535 0) = some (s1, e) ∧
      s1.get (Entity.mk 5 65535 0) = some (Ptr.elem one_attached.instances.length) ∧
      s1.deref (Ptr.elem one_attached.instances.length) = some default ∧
      s1.instances.getLast? = some default ∧
      s1.instances.length = one_attached.instances.length + 1 ∧
      s1.has_component (Entity.mk 5 65535 0) = some true ∧
      ∀ v : Nat, ∃ s2, s1.assign (Ptr.elem one_attached.instances.length) v = some s2 ∧
        s2.get (Entity.mk 5 65535 0) = some (Ptr.elem one_attached.instances.length) ∧
        s2.deref (Ptr.elem one_attached.instances.length) = some v :=
  ⟨⟨by decide, by decide⟩,
    attach_get_round_trip one_attached (Entity.mk 5 65535 0) (by decide) (by decide)⟩

/-- C6: on a store with `n < 65535` instances, `attach(h)` with `h.id < 65535` returns
the handle with the id and generation of `h` and index `n`, records exactly that handle
in `lookup_[h.id]`, gives `instances` the length `n + 1` with a default-constructed
element at position `n`, and leaves the first `n` instances and the table entries of
all other ids as they were. -/
theorem attach_spec [Inhabited T] (s : ComponentData T) (h : Entity)
    (hn : s.instances.length < 65535) (hid : h.id < 65535) :
    ∃ s1, s.attach h =
        some (s1, { id := h.id, index := s.instances.length, generation := h.generation }) ∧
      s1.lookup_ h.id =
        { id := h.id, index := s.instances.length, generation := h.generation } ∧
      s1.instances.length = s.instances.length + 1 ∧
      s1.instances[s.instances.length]? = some default ∧
      (∀ i, i < s.instances.length → s1.instances[i]? = s.instances[i]?) ∧
      (∀ k, k ≠ h.id → s1.lookup_ k = s.lookup_ k) := by
  refine ⟨_, attach_eq s h hn hid, ?_, ?_, ?_, ?_, ?_⟩
  · simp
  · simp
  · simp
  · intro i hi
    simp [List.getElem?_append_left hi]
  · intro k hk
    simp [Function.update, hk]

/-- An instance on `one_attached`, for a new handle of id `5` and generation `4`. -/
theorem attach_spec_witness :
    (one_attached.instances.length < 65535 ∧ 5 < 65535) ∧
    ∃ s1, one_attached.attach (Entity.mk 5 65535 4) =
        some (s1, { id := 5, index := one_attached.instances.length, generation := 4 }) ∧
      s1.lookup_ 5 = { id := 5, index := one_attached.instances.length, generation := 4 } ∧
      s1.instances.length = one_attached.instances.length + 1 ∧
      s1.instances[one_attached.instances.length]? = some default ∧
      (∀ i, i < one_attached.instances.length →
        s1.instances[i]? = one_attached.instances[i]?) ∧
      (∀ k, k ≠ 5 → s1.lookup_ k = one_attached.lookup_ k) :=
  ⟨⟨by decide, by decide⟩,
    attach_spec one_attached (Entity.mk 5 65535 4) (by decide) (by decide)⟩

/-- C7: on a fresh registry the `k`-th call of `create` returns the handle with id
`k mod 65536`, generation `floor (k / 65536) mod 65536` and index `65535`, both when
only `create()` was called before and when the calls before it are any defined sequence
of calls (tagged creates, destroys and the others included); the first handle has id `1`
and generation `0`, and between two consecutive handles the generation changes only
when the later one has id `0`. -/
theorem create_kth_handle [Inhabited Sprite] [Inhabited FloatRect] (cs : List Call)
    (hs : List Entity)
    (hrun : ((EntityMap.new : EntityMap Sprite FloatRect).run cs).map Prod.snd = some hs) :
    (∀ k, 1 ≤ k →
      (((EntityMap.new : EntityMap Sprite FloatRect).create_n (k - 1)).create).2 =
        { id := k % 65536, index := 65535, generation := k / 65536 % 65536 }) ∧
    (∀ k, 1 ≤ k → k ≤ hs.length →
      hs[k - 1]? =
        some { id := k % 65536, index := 65535, generation := k / 65536 % 65536 }) ∧
    (∀ a, hs[0]? = some a → a.id = 1 ∧ a.generation = 0) ∧
    (∀ k a b, hs[k]? = some a → hs[k + 1]? = some b →
      a.generation ≠ b.generation → b.id = 0) := by
  have key : ∀ i a, hs[i]? = some a → a = kth_handle (i + 1) := fun i a ha =>
    run_new_handles cs hs hrun (i + 1) a (by omega) (by simpa using ha)
  refine ⟨?_, ?_, ?_, ?_⟩
  · intro k hk
    have := create_n_last Sprite FloatRect (k - 1)
    rw [this, kth_handle]
    have e : k - 1 + 1 = k := by omega
    rw [e]
  · intro k h1 h2
    have hlt : k - 1 < hs.length := by omega
    have hget : hs[k - 1]? = some (hs[k - 1]) := List.getElem?_eq_getElem hlt
    rw [hget, key (k - 1) _ hget, kth_handle]
    have e : k - 1 + 1 = k := by omega
    rw [e]
  · intro a ha
    rw [key 0 a ha]
    simp [kth_handle]
  · intro k a b ha hb hne
    rw [key k a ha, key (k + 1) b hb] at hne
    rw [key (k + 1) b hb]
    simp only [kth_handle] at hne ⊢
    omega

/-- An instance on the run `session`, for its third handle. -/
theorem create_kth_handle_witness :
    ((EntityMap.new : EntityMap Unit Unit).run session).map Prod.snd =
        some [Entity.mk 1 65535 0, Entity.mk 2 65535 0, Entity.mk 3 65535 0] ∧
    [Entity.mk 1 65535 0, Entity.mk 2 65535 0, Entity.mk 3 65535 0][3 - 1]? =
      some { id := 3 % 65536, index := 65535, generation := 3 / 65536 % 65536 } :=
  ⟨by rfl,
    (@create_kth_handle Unit Unit _ _ session
      [Entity.mk 1 65535 0, Entity.mk 2 65535 0, Entity.mk 3 65535 0] (by rfl)).2.1 3
      (by decide) (by decide)⟩

/-- C8 (counterexample): a fresh registry gets a `SpriteSystem`, creates its first
entity (id `1`, generation `0`) and attaches it; after `65536` further `create()` calls
`nextId_` has wrapped and `currentGeneration_` is `1`, yet on the store `get` of the old
handle is still the address of position `0` and `has_entity` is still true. -/
theorem stale_handle_still_resolves :
    ∃ m0 m sys, before_wrap = some m0 ∧ m0.nextId_ = 1 ∧ m0.currentGeneration_ = 0 ∧
      after_wrap = some m ∧ m.nextId_ = 1 ∧ m.currentGeneration_ = 1 ∧
      m.systems_ TypeIndex.SpriteSystem = some (some sys) ∧
      sys.get (Entity.mk 1 65535 0) = some (Ptr.elem 0) ∧
      sys.has_entity (Entity.mk 1 65535 0) = some true := by
  have hb : ∃ m0 sys, before_wrap = some m0 ∧ m0.nextId_ = 1 ∧ m0.currentGeneration_ = 0 ∧
      m0.systems_ TypeIndex.SpriteSystem = some (some sys) ∧
      sys.get (Entity.mk 1 65535 0) = some (Ptr.elem 0) ∧
      sys.has_entity (Entity.mk 1 65535 0) = some true :=
    ⟨_, _, rfl, rfl, rfl, rfl, rfl, rfl⟩
  obtain ⟨m0, sys, h0, hid, hgen, hsys, hget, hhas⟩ := hb
  have hc : Counted m0 1 := by
    simp [Counted, hid, hgen]
  have hc2 := counted_create_n 65536 hc
  refine ⟨m0, m0.create_n 65536, sys, h0, hid, hgen, ?_, ?_, ?_, ?_, hget, hhas⟩
  · simp [after_wrap, h0]
  · simpa using hc2.1
  · simpa using hc2.2
  · rw [create_n_systems]
    exact hsys

/-- C8 (amended): any number of `create()` calls leaves every entry of `systems_` as it
was, so a store answers `get` and `has_component` for an old handle after the wrap as it
did before; and once a handle with the same id and a different generation has been
attached to a store, `get` of the old handle is `nullptr` and `has_component` is false
on that store. -/
theorem stale_after_reattach [Inhabited T] (m : EntityMap Sprite FloatRect) (n : Nat)
    (s s1 : ComponentData T) (h h2 e : Entity)
    (hid : h.id < 65535) (hsame : h2.id = h.id) (hgen : h2.generation ≠ h.generation)
    (hatt : s.attach h2 = some (s1, e)) :
    (m.create_n n).systems_ = m.systems_ ∧
    s1.get h = some Ptr.nullptr ∧ s1.has_component h = some false := by
  refine ⟨create_n_systems n m, ?_⟩
  have hid2 : h.id < UINT16_MAX := hid
  obtain ⟨i2, x2, g2⟩ := h2
  simp only at hsame hgen
  subst hsame
  simp only [ComponentData.attach, hid2, if_true, Option.some.injEq, Prod.mk.injEq] at hatt
  obtain ⟨rfl, -⟩ := hatt
  simp [ComponentData.get, ComponentData.has_component, hid2, hgen]

/-- An instance on a fresh store, for id `1` and the generations `0` and `1`. -/
theorem stale_after_reattach_witness :
    ((1 : Nat) < 65535 ∧ (1 : Nat) = 1 ∧ (1 : Nat) ≠ 0 ∧
      (ComponentData.new : ComponentData Unit).attach (Entity.mk 1 65535 1) =
        some (ComponentData.mk [()]
          (Function.update (ComponentData.new : ComponentData Unit).lookup_ 1 (Entity.mk 1 0 1)),
          Entity.mk 1 0 1)) ∧
    (((EntityMap.new : EntityMap Unit Unit).create_n 2).systems_ =
        (EntityMap.new : EntityMap Unit Unit).systems_ ∧
      (ComponentData.mk [()]
        (Function.update (ComponentData.new : ComponentData Unit).lookup_ 1
          (Entity.mk 1 0 1))).get (Entity.mk 1 65535 0) = some Ptr.nullptr ∧
      (ComponentData.mk [()]
        (Function.update (ComponentData.new : ComponentData Unit).lookup_ 1
          (Entity.mk 1 0 1))).has_component (Entity.mk 1 65535 0) = some false) :=
  ⟨⟨by decide, rfl, by decide, rfl⟩,
    stale_after_reattach (EntityMap.new : EntityMap Unit Unit) 2 ComponentData.new
      (ComponentData.mk [()]
        (Function.update (ComponentData.new : ComponentData Unit).lookup_ 1 (Entity.mk 1 0 1)))
      (Entity.mk 1 65535 0) (Entity.mk 1 65535 1) (Entity.mk 1 0 1)
      (by decide) rfl (by decide) rfl⟩

/-- C9: among the handles that the `create` calls of a defined sequence of calls on a
fresh registry return (destroys and all other calls may be interleaved), the `i`-th and
the `j`-th, with `i < j` and `j - i < 2 ^ 32`, differ in id or in generation; their ids
are equal exactly when `65536` divides `j - i`, and then their generations differ. -/
theorem issued_handles_distinct [Inhabited Sprite] [Inhabited FloatRect] (cs : List Call)
    (hs : List Entity)
    (hrun : ((EntityMap.new : EntityMap Sprite FloatRect).run cs).map Prod.snd = some hs)
    (i j : Nat) (a b : Entity) (h1 : 1 ≤ i) (hij : i < j) (hd : j - i < 2 ^ 32)
    (ha : hs[i - 1]? = some a) (hb : hs[j - 1]? = some b) :
    (a.id ≠ b.id ∨ a.generation ≠ b.generation) ∧
    (a.id = b.id ↔ 65536 ∣ j - i) ∧
    (a.id = b.id → a.generation ≠ b.generation) := by
  rw [run_new_handles cs hs hrun i a h1 ha, run_new_handles cs hs hrun j b (by omega) hb]
  simp only [kth_handle]
  have hpow : (2 : Nat) ^ 32 = 4294967296 := by norm_num
  rw [hpow] at hd
  refine ⟨?_, ?_, ?_⟩
  · omega
  · constructor
    · intro h
      exact (Nat.dvd_iff_mod_eq_zero ..).2 (by omega)
    · intro h
      have := Nat.mod_eq_zero_of_dvd h
      omega
  · omega

/-- An instance on the run `session`, for its first and third handle. -/
theorem issued_handles_distinct_witness :
    (((EntityMap.new : EntityMap Unit Unit).run session).map Prod.snd =
        some [Entity.mk 1 65535 0, Entity.mk 2 65535 0, Entity.mk 3 65535 0] ∧
      1 ≤ 1 ∧ 1 < 3 ∧ 3 - 1 < 2 ^ 32 ∧
      [Entity.mk 1 65535 0, Entity.mk 2 65535 0, Entity.mk 3 65535 0][1 - 1]? =
        some (Entity.mk 1 65535 0) ∧
      [Entity.mk 1 65535 0, Entity.mk 2 65535 0, Entity.mk 3 65535 0][3 - 1]? =
        some (Entity.mk 3 65535 0)) ∧
    (((Entity.mk 1 65535 0).id ≠ (Entity.mk 3 65535 0).id ∨
        (Entity.mk 1 65535 0).generation ≠ (Entity.mk 3 65535 0).generation) ∧
      ((Entity.mk 1 65535 0).id = (Entity.mk 3 65535 0).id ↔ 65536 ∣ 3 - 1) ∧
      ((Entity.mk 1 65535 0).id = (Entity.mk 3 65535 0).id →
        (Entity.mk 1 65535 0).generation ≠ (Entity.mk 3 65535 0).generation)) :=
  ⟨⟨by rfl, by decide, by decide, by decide, by rfl, by rfl⟩,
    @issued_handles_distinct Unit Unit _ _ session
      [Entity.mk 1 65535 0, Entity.mk 2 65535 0, Entity.mk 3 65535 0] (by rfl)
      1 3 (Entity.mk 1 65535 0) (Entity.mk 3 65535 0) (by decide) (by decide) (by decide)
      (by rfl) (by rfl)⟩

/-- C10: `get_tagged_entity(t)` called after `create(t)` returns the handle `create(t)`
returned and leaves the registry as it is, whatever `t` was bound to before; after a
second `create(t)` the lookup returns the handle of that second call; and `create(t)`
leaves the binding of every other tag unchanged. -/
theorem tag_round_trip (m : EntityMap Sprite FloatRect) (t t2 : String) (ht : t2 ≠ t) :
    ((m.create_tagged t).1.get_tagged_entity t).2 = (m.create_tagged t).2 ∧
    ((m.create_tagged t).1.get_tagged_entity t).1 = (m.create_tagged t).1 ∧
    ((m.create_tagged t).1.tags_ t = some (m.create_tagged t).2) ∧
    ((((m.create_tagged t).1.create_tagged t).1.get_tagged_entity t).2 =
      ((m.create_tagged t).1.create_tagged t).2) ∧
    (m.create_tagged t).1.tags_ t2 = m.tags_ t2 := by
  have hb : ∀ m : EntityMap Sprite FloatRect,
      (m.create_tagged t).1.tags_ t = some (m.create_tagged t).2 := by
    intro m
    simp [EntityMap.create_tagged]
  have hg : ∀ m : EntityMap Sprite FloatRect,
      (m.create_tagged t).1.get_tagged_entity t =
        ((m.create_tagged t).1, (m.create_tagged t).2) := by
    intro m
    simp only [EntityMap.get_tagged_entity, hb m]
  refine ⟨?_, ?_, hb m, ?_, ?_⟩
  · rw [hg m]
  · rw [hg m]
  · rw [hg (m.create_tagged t).1]
  · simp [EntityMap.create_tagged, EntityMap.create, EntityMap.get_entity, Function.update, ht]

/-- An instance on a fresh registry, for the tags `player` and `enemy`. -/
theorem tag_round_trip_witness :
    "enemy" ≠ "player" ∧
    ((((EntityMap.new : EntityMap Unit Unit).create_tagged "player").1.get_tagged_entity
        "player").2 = ((EntityMap.new : EntityMap Unit Unit).create_tagged "player").2 ∧
      (((EntityMap.new : EntityMap Unit Unit).create_tagged "player").1.get_tagged_entity
        "player").1 = ((EntityMap.new : EntityMap Unit Unit).create_tagged "player").1 ∧
      (((EntityMap.new : EntityMap Unit Unit).create_tagged "player").1.tags_ "player" =
        some ((EntityMap.new : EntityMap Unit Unit).create_tagged "player").2) ∧
      (((((EntityMap.new : EntityMap Unit Unit).create_tagged "player").1.create_tagged
        "player").1.get_tagged_entity "player").2 =
        (((EntityMap.new : EntityMap Unit Unit).create_tagged "player").1.create_tagged
          "player").2) ∧
      ((EntityMap.new : EntityMap Unit Unit).create_tagged "player").1.tags_ "enemy" =
        (EntityMap.new : EntityMap Unit Unit).tags_ "enemy") :=
  ⟨by decide, tag_round_trip (EntityMap.new : EntityMap Unit Unit) "player" "enemy" (by decide)⟩

end Claims

/-! ## Further lemmas -/

section Lemmas2

variable {T Sprite FloatRect : Type}

/-- `detach` of a handle for which `get` is `nullptr` dereferences that pointer. -/
theorem detach_nullptr (s : ComponentData T) (h : Entity) (hg : s.get h = some Ptr.nullptr) :
    s.detach h = none := by
  simp [ComponentData.detach, hg]

/-- The positions of `instances` after the swap with the last element and the pop. -/
theorem swap_dropLast_get (l : List T) (i j : Nat) (hi : i < l.length)
    (hj : j < l.length - 1) :
    (ComponentData.swap l i (l.length - 1)).dropLast[j]? =
      if j = i then l[l.length - 1]? else l[j]? := by
  have hlast : l.length - 1 < l.length := by omega
  have e1 : l[i]? = some l[i] := List.getElem?_eq_getElem hi
  have e2 : l[l.length - 1]? = some l[l.length - 1] := List.getElem?_eq_getElem hlast
  have hsw : ComponentData.swap l i (l.length - 1) =
      (l.set i l[l.length - 1]).set (l.length - 1) l[i] := by
    simp only [ComponentData.swap, e1, e2]
  rw [hsw, List.getElem?_dropLast]
  simp only [List.length_set, hj, if_true]
  rw [List.getElem?_set_ne (by omega), List.getElem?_set]
  by_cases hji : j = i
  · subst hji
    simp [hi]
  · have : ¬ i = j := fun h => hji h.symm
    simp [hji, this]

/-- The store `detach` leaves when `has_component` is true. -/
theorem detach_eq (s : ComponentData T) (h : Entity) (hc : s.has_component h = some true) :
    s.detach h = some
      { instances :=
          (ComponentData.swap s.instances (s.lookup_ h.id).index
            (s.instances.length - 1)).dropLast
        lookup_ := Function.update s.lookup_ h.id
          { s.lookup_ h.id with index := UINT16_MAX } } := by
  obtain ⟨hid, hg, hlt, hs⟩ := (has_component_true_iff s h).1 hc
  have hget : s.get h = some (Ptr.elem (s.lookup_ h.id).index) := by
    simp [ComponentData.get, hid, hg, hs]
  simp only [ComponentData.detach, hget, hlt, if_true]

/-- The number of `uint64_t` values as a numeral. -/
theorem U64_eq : U64 = 18446744073709551616 := by
  unfold U64
  norm_num

/-- The effect of one call on `size_`. -/
theorem call_size [Inhabited Sprite] [Inhabited FloatRect]
    {m m1 : EntityMap Sprite FloatRect} {call : Call} {hs : List Entity}
    (hc : m.call call = some (m1, hs)) :
    m1.size_ =
      if call.is_create then (m.size_ + 1) % U64
      else if call.is_destroy then (m.size_ + U64 - 1) % U64
      else m.size_ := by
  cases call with
  | add_system k =>
    simp only [EntityMap.call, Option.some.injEq, Prod.mk.injEq] at hc
    obtain ⟨rfl, -⟩ := hc
    simp only [EntityMap.add_system, EntityMap.get_system, Call.is_create, Call.is_destroy]
    split <;> split <;> rfl
  | get_system k =>
    simp only [EntityMap.call, Option.some.injEq, Prod.mk.injEq] at hc
    obtain ⟨rfl, -⟩ := hc
    simp only [EntityMap.get_system, Call.is_create, Call.is_destroy]
    split <;> rfl
  | create =>
    simp only [EntityMap.call, Option.some.injEq, Prod.mk.injEq] at hc
    obtain ⟨rfl, -⟩ := hc
    rfl
  | create_tagged tag =>
    simp only [EntityMap.call, Option.some.injEq, Prod.mk.injEq] at hc
    obtain ⟨rfl, -⟩ := hc
    rfl
  | destroy entity =>
    simp only [EntityMap.call, Option.map_eq_some', Prod.mk.injEq] at hc
    obtain ⟨m2, hd, rfl, -⟩ := hc
    simp only [EntityMap.destroy, Option.map_eq_some'] at hd
    obtain ⟨sys, -, rfl⟩ := hd
    simp only [Call.is_create, Call.is_destroy, if_true, if_false, Bool.false_eq_true]
  | get_tagged_entity tag =>
    simp only [EntityMap.call, Option.some.injEq, Prod.mk.injEq] at hc
    obtain ⟨rfl, -⟩ := hc
    simp only [EntityMap.get_tagged_entity, Call.is_create, Call.is_destroy]
    split <;> rfl
  | attach k entity =>
    simp only [EntityMap.call, Option.map_eq_some', Prod.mk.injEq] at hc
    obtain ⟨m2, hd, rfl, -⟩ := hc
    simp only [EntityMap.attach] at hd
    split at hd
    · simp only [Option.map_eq_some'] at hd
      obtain ⟨sys, -, rfl⟩ := hd
      rfl
    · exact absurd hd (by simp)
  | remove k entity =>
    simp only [EntityMap.call, Option.map_eq_some', Prod.mk.injEq] at hc
    obtain ⟨m2, hd, rfl, -⟩ := hc
    simp only [EntityMap.remove] at hd
    split at hd
    · simp only [Option.map_eq_some'] at hd
      obtain ⟨sys, -, rfl⟩ := hd
      rfl
    · exact absurd hd (by simp)
  | belongs_to k entity =>
    simp only [EntityMap.call, Option.map_eq_some', Prod.mk.injEq] at hc
    obtain ⟨b, -, rfl, -⟩ := hc
    rfl

/-- The value of `size_` after a run, as a signed difference modulo `2 ^ 64`. -/
theorem run_size [Inhabited Sprite] [Inhabited FloatRect] (cs : List Call) :
    ∀ {m m1 : EntityMap Sprite FloatRect} {hs : List Entity} {c d : Nat},
      (m.size_ : Int) = ((c : Int) - d) % 18446744073709551616 →
      m.run cs = some (m1, hs) →
      (m1.size_ : Int) =
        (((c + cs.countP Call.is_create : Nat) : Int) -
          ((d + cs.countP Call.is_destroy : Nat) : Int))
          % 18446744073709551616 := by
  induction cs with
  | nil =>
    intro m m1 hs c d h hr
    simp only [EntityMap.run, Option.some.injEq, Prod.mk.injEq] at hr
    obtain ⟨rfl, -⟩ := hr
    simpa using h
  | cons a cs ih =>
    intro m m1 hs c d h hr
    simp only [EntityMap.run, Option.bind_eq_some, Option.map_eq_some', Prod.mk.injEq] at hr
    obtain ⟨⟨m2, hs1⟩, hcall, ⟨m3, hs2⟩, hrun, rfl, -⟩ := hr
    have hsz := call_size hcall
    rw [U64_eq] at hsz
    have hstep : (m2.size_ : Int) =
        (((c + (if a.is_create then 1 else 0) : Nat) : Int) -
          ((d + (if a.is_destroy then 1 else 0) : Nat) : Int)) % 18446744073709551616 := by
      cases a <;>
        simp only [Call.is_create, Call.is_destroy, if_true, if_false,
          Bool.false_eq_true] at hsz ⊢ <;> omega
    have := ih hstep hrun
    rw [this, List.countP_cons, List.countP_cons]
    congr 2 <;> omega

/-- A run that only calls `create()` has no undefined behaviour. -/
theorem run_creates_defined [Inhabited Sprite] [Inhabited FloatRect] (n : Nat) :
    ∀ m : EntityMap Sprite FloatRect, ∃ r, m.run (List.replicate n Call.create) = some r := by
  induction n with
  | zero => intro m; exact ⟨(m, []), rfl⟩
  | succ n ih =>
    intro m
    obtain ⟨r, hr⟩ := ih m.create.1
    refine ⟨(r.1, [m.create.2] ++ r.2), ?_⟩
    rw [List.replicate_succ]
    simp only [EntityMap.run, EntityMap.call, Option.some_bind, hr, Option.map_some']

/-- A fresh registry has `size_` zero. -/
theorem new_size_zero : ((EntityMap.new : EntityMap Sprite FloatRect).size_ : Int) =
    (((0 : Nat) : Int) - ((0 : Nat) : Int)) % 18446744073709551616 := by
  simp [EntityMap.new]

/-- `attach` on a store succeeds for an id inside the table. -/
theorem store_attach_defined [Inhabited T] (s : ComponentData T) (e : Entity)
    (he : e.id < UINT16_MAX) : ∃ r, s.attach e = some r := by
  simp [ComponentData.attach, he]

/-- `add` succeeds for an id inside the table. -/
theorem system_add_defined [Inhabited Sprite] [Inhabited FloatRect]
    (sys : System Sprite FloatRect) (e : Entity) (he : e.id < UINT16_MAX) :
    ∃ sys1, sys.add e = some sys1 := by
  cases sys with
  | SpriteSystem d =>
    obtain ⟨r, hr⟩ := store_attach_defined d e he
    exact ⟨System.SpriteSystem r.1, by simp [System.add, hr]⟩
  | CollisionSystem d =>
    obtain ⟨r, hr⟩ := store_attach_defined d e he
    exact ⟨System.CollisionSystem r.1, by simp [System.add, hr]⟩

/-- `add` subscripts `lookup_` out of bounds for an id outside the table. -/
theorem system_add_out_of_table [Inhabited Sprite] [Inhabited FloatRect]
    (sys : System Sprite FloatRect) (e : Entity) (he : ¬ e.id < UINT16_MAX) :
    sys.add e = none := by
  cases sys <;> simp [System.add, ComponentData.attach, he]

/-- `attach<T>` is undefined for an id outside the table. -/
theorem map_attach_out_of_table [Inhabited Sprite] [Inhabited FloatRect]
    (m : EntityMap Sprite FloatRect) (k : TypeIndex) (e : Entity) (he : ¬ e.id < UINT16_MAX) :
    m.attach k e = none := by
  unfold EntityMap.attach
  split
  · simp [system_add_out_of_table _ e he]
  · rfl

/-- `attach<T>` succeeds on a registry with both systems, for an id inside the table. -/
theorem map_attach_defined [Inhabited Sprite] [Inhabited FloatRect]
    (m : EntityMap Sprite FloatRect) (k : TypeIndex) (e : Entity) (c : Nat)
    (he : e.id < UINT16_MAX) (hr : m.Registered) (hc : Counted m c) :
    ∃ m1, m.attach k e = some m1 ∧ m1.Registered ∧ Counted m1 c := by
  obtain ⟨⟨s1, h1⟩, ⟨s2, h2⟩⟩ := hr
  cases k with
  | SpriteSystem =>
    obtain ⟨sys1, hs⟩ := system_add_defined s1 e he
    refine ⟨{ m with systems_ :=
        Function.update m.systems_ TypeIndex.SpriteSystem (some (some sys1)) },
      by simp only [EntityMap.attach, h1, hs, Option.map_some'], ?_, hc⟩
    exact ⟨⟨sys1, by simp⟩, ⟨s2, by simpa [Function.update] using h2⟩⟩
  | CollisionSystem =>
    obtain ⟨sys1, hs⟩ := system_add_defined s2 e he
    refine ⟨{ m with systems_ :=
        Function.update m.systems_ TypeIndex.CollisionSystem (some (some sys1)) },
      by simp only [EntityMap.attach, h2, hs, Option.map_some'], ?_, hc⟩
    exact ⟨⟨s1, by simpa [Function.update] using h1⟩, ⟨sys1, by simp⟩⟩

/-- `create()` leaves the registered systems in place. -/
theorem create_registered (m : EntityMap Sprite FloatRect) (hr : m.Registered) :
    m.create.1.Registered := hr

/-- The loop of `setup_dod` succeeds while the ids stay below `65535`. -/
theorem setup_dod_loop_defined [Inhabited Sprite] [Inhabited FloatRect] (n : Nat) :
    ∀ (m : EntityMap Sprite FloatRect) (c : Nat), m.Registered → Counted m c →
      c + n < 65535 →
      ∃ m1, m.setup_dod_loop n = some m1 ∧ m1.Registered ∧ Counted m1 (c + n) := by
  induction n with
  | zero => intro m c hr hc _; exact ⟨m, rfl, hr, hc⟩
  | succ n ih =>
    intro m c hr hc hlt
    obtain ⟨hc1, he⟩ := counted_create hc
    have hid : m.create.2.id < UINT16_MAX := by
      rw [he]
      simp only [kth_handle, UINT16_MAX]
      omega
    obtain ⟨m1, h1, hr1, hc1⟩ :=
      map_attach_defined m.create.1 TypeIndex.SpriteSystem m.create.2 (c + 1) hid
        (create_registered m hr) hc1
    obtain ⟨m2, h2, hr2, hc2⟩ :=
      map_attach_defined m1 TypeIndex.CollisionSystem m.create.2 (c + 1) hid hr1 hc1
    obtain ⟨m3, h3, hr3, hc3⟩ := ih m2 (c + 1) hr2 hc2 (by omega)
    refine ⟨m3, ?_, hr3, ?_⟩
    · simp only [EntityMap.setup_dod_loop, h1, h2, Option.some_bind, h3]
    · have e : c + (n + 1) = c + 1 + n := by omega
      rw [e]
      exact hc3

/-- The loop of `setup_dod` for `a + b` iterations is the one for `a`, then for `b`. -/
theorem setup_dod_loop_add [Inhabited Sprite] [Inhabited FloatRect] (a b : Nat) :
    ∀ m : EntityMap Sprite FloatRect,
      m.setup_dod_loop (a + b) = (m.setup_dod_loop a).bind fun m1 => m1.setup_dod_loop b := by
  induction a with
  | zero => intro m; simp [EntityMap.setup_dod_loop]
  | succ a ih =>
    intro m
    have e : a + 1 + b = (a + b) + 1 := by omega
    rw [e]
    simp only [EntityMap.setup_dod_loop]
    cases h1 : m.create.1.attach TypeIndex.SpriteSystem m.create.2 with
    | none => simp
    | some m1 =>
      simp only [Option.some_bind]
      cases h2 : m1.attach TypeIndex.CollisionSystem m.create.2 with
      | none => simp
      | some m2 =>
        simp only [Option.some_bind]
        exact ih m2

/-- After the two `add_system` calls of `setup_dod` both systems are registered. -/
theorem setup_registered (m : EntityMap Sprite FloatRect) (h : m.systems_ = fun _ => none) :
    ((m.add_system TypeIndex.SpriteSystem).1.add_system TypeIndex.CollisionSystem).1.Registered ∧
    ∀ c, Counted m c →
      Counted
        ((m.add_system TypeIndex.SpriteSystem).1.add_system TypeIndex.CollisionSystem).1 c := by
  simp [EntityMap.add_system, EntityMap.get_system, h, EntityMap.Registered, Function.update,
    Counted]

/-- `setup_dod` succeeds for fewer than `65535` entities. -/
theorem setup_dod_within (Sprite FloatRect : Type) [Inhabited Sprite] [Inhabited FloatRect]
    (n : Nat) (hn : n < 65535) :
    ∃ m, (EntityMap.new : EntityMap Sprite FloatRect).setup_dod n = some m ∧
      m.Registered ∧ Counted m n := by
  obtain ⟨hr, hc⟩ := setup_registered (EntityMap.new : EntityMap Sprite FloatRect) rfl
  obtain ⟨m1, h1, hr1, hc1⟩ :=
    setup_dod_loop_defined n _ 0 hr (hc 0 counted_new) (by omega)
  rw [Nat.zero_add] at hc1
  exact ⟨m1, h1, hr1, hc1⟩

/-- `setup_dod` for `65535` entities runs into the out-of-bounds subscript. -/
theorem setup_dod_overrun [Inhabited Sprite] [Inhabited FloatRect] (n : Nat)
    (hn : n = 65534) :
    (EntityMap.new : EntityMap Sprite FloatRect).setup_dod (n + 1) = none := by
  obtain ⟨m1, h1, -, hc1⟩ := setup_dod_within Sprite FloatRect n (by omega)
  have hid : ¬ m1.create.2.id < UINT16_MAX := by
    rw [(counted_create hc1).2, hn]
    simp [kth_handle, UINT16_MAX]
  have hlast : m1.setup_dod_loop 1 = none := by
    simp only [EntityMap.setup_dod_loop, map_attach_out_of_table _ _ _ hid, Option.none_bind]
  unfold EntityMap.setup_dod at h1 ⊢
  simp only [] at h1 ⊢
  rw [setup_dod_loop_add, h1, Option.some_bind, hlast]

end Lemmas2

/-! ## The claims on the registry and on the dense array -/

section Claims2

variable {T Sprite FloatRect : Type}

/-- C11 (counterexample): on a registry where only `create("player")` was called the
tag `missing` has no binding, and `get_tagged_entity("missing")` returns the zero-valued
handle `{id 0, index 0, generation 0}`. -/
theorem missing_tag_gives_zero_handle :
    only_player.tags_ "missing" = none ∧
    (only_player.get_tagged_entity "missing").2 = Entity.mk 0 0 0 := by
  constructor <;> rfl

/-- C11 (amended): for a tag `t` without a binding `get_tagged_entity(t)` raises no error:
it returns the zero-valued handle and binds `t` to it, so that the next lookup returns
it again, and it leaves the other tags as they are; the handles `create` returns carry the
index `65535` and so differ from that handle. -/
theorem unbound_tag_lookup (m : EntityMap Sprite FloatRect) (t t2 : String)
    (hm : m.tags_ t = none) (ht : t2 ≠ t) :
    (m.get_tagged_entity t).2 = Entity.mk 0 0 0 ∧
    (m.get_tagged_entity t).1.tags_ t = some (Entity.mk 0 0 0) ∧
    ((m.get_tagged_entity t).1.get_tagged_entity t).2 = Entity.mk 0 0 0 ∧
    (m.get_tagged_entity t).1.tags_ t2 = m.tags_ t2 ∧
    (m.create.2.index = 65535 ∧ (m.create_tagged t2).2.index = 65535 ∧
      m.create.2 ≠ (m.get_tagged_entity t).2 ∧
      (m.create_tagged t2).2 ≠ (m.get_tagged_entity t).2) := by
  have h0 : m.get_tagged_entity t =
      ({ m with tags_ := Function.update m.tags_ t (some (Entity.mk 0 0 0)) },
        Entity.mk 0 0 0) := by
    simp only [EntityMap.get_tagged_entity, hm]
  refine ⟨by rw [h0], by rw [h0]; simp, ?_, ?_, rfl, rfl, ?_, ?_⟩
  · rw [h0]
    simp [EntityMap.get_tagged_entity]
  · rw [h0]
    simp [Function.update, ht]
  · rw [h0]
    intro h
    have := congrArg Entity.index h
    simp [EntityMap.create, EntityMap.get_entity, UINT16_MAX] at this
  · rw [h0]
    intro h
    have := congrArg Entity.index h
    simp [EntityMap.create_tagged, EntityMap.create, EntityMap.get_entity, UINT16_MAX] at this

/-- An instance on `only_player`, for the tags `missing` and `enemy`. -/
theorem unbound_tag_lookup_witness :
    (only_player.tags_ "missing" = none ∧ "enemy" ≠ "missing") ∧
    ((only_player.get_tagged_entity "missing").2 = Entity.mk 0 0 0 ∧
    (only_player.get_tagged_entity "missing").1.tags_ "missing" = some (Entity.mk 0 0 0) ∧
    ((only_player.get_tagged_entity "missing").1.get_tagged_entity "missing").2 =
      Entity.mk 0 0 0 ∧
    (only_player.get_tagged_entity "missing").1.tags_ "enemy" = only_player.tags_ "enemy" ∧
    (only_player.create.2.index = 65535 ∧ (only_player.create_tagged "enemy").2.index = 65535 ∧
      only_player.create.2 ≠ (only_player.get_tagged_entity "missing").2 ∧
      (only_player.create_tagged "enemy").2 ≠ (only_player.get_tagged_entity "missing").2)) :=
  ⟨⟨rfl, by decide⟩, unbound_tag_lookup only_player "missing" "enemy" rfl
      (by decide)⟩

/-- C12 (the code departs from it): on a registry with a `SpriteSystem` and an entity
that was created and attached to nothing, the store is empty, `has_entity` is false and
`get` is `nullptr`; `remove`, and with it `destroy`, dereferences that null pointer
instead of leaving the host as it is. -/
theorem destroy_never_attached_undefined :
    (∃ sys, never_attached.systems_ TypeIndex.SpriteSystem = some (some sys) ∧
      sys.count = 0 ∧ sys.has_entity entityA = some false ∧
      sys.get entityA = some Ptr.nullptr ∧ sys.remove entityA = none) ∧
    never_attached.destroy entityA = none := by
  refine ⟨⟨_, rfl, rfl, rfl, rfl, rfl⟩, rfl⟩

/-- C13 (the code departs from it): after a first `destroy(entityA)` of the attached
entity the store is empty and `get(entityA)` is `nullptr`; the second `destroy(entityA)`
calls `remove`, which dereferences that null pointer instead of doing nothing. -/
theorem second_destroy_undefined :
    (∃ m sys, destroyed_once = some m ∧
      m.systems_ TypeIndex.SpriteSystem = some (some sys) ∧
      sys.count = 0 ∧ sys.get entityA = some Ptr.nullptr ∧ sys.remove entityA = none) ∧
    destroyed_twice = none := by
  refine ⟨⟨_, _, rfl, rfl, rfl, rfl, rfl⟩, rfl⟩

/-- C14 (counterexample): after `2 ^ 64` calls of `create()` and no `destroy`, `size()`
is `0`, not `2 ^ 64 - 0`. -/
theorem size_wraps_to_zero :
    (List.replicate (2 ^ 64) Call.create).countP Call.is_create = 2 ^ 64 ∧
    (List.replicate (2 ^ 64) Call.create).countP Call.is_destroy = 0 ∧
    ((EntityMap.new : EntityMap Unit Unit).run (List.replicate (2 ^ 64) Call.create)).map
      (fun r => r.1.size) = some 0 ∧
    (0 : Nat) ≠ 2 ^ 64 - 0 := by
  have hc : ∀ n, (List.replicate n Call.create).countP Call.is_create = n := by
    intro n
    rw [List.countP_replicate]
    simp [Call.is_create]
  have hd : ∀ n, (List.replicate n Call.create).countP Call.is_destroy = 0 := by
    intro n
    rw [List.countP_replicate]
    simp [Call.is_destroy]
  have hsize : ∀ n, n = 18446744073709551616 →
      ((EntityMap.new : EntityMap Unit Unit).run (List.replicate n Call.create)).map
        (fun r => r.1.size) = some 0 := by
    intro n hn
    obtain ⟨⟨m, hs⟩, hr⟩ := run_creates_defined n (EntityMap.new : EntityMap Unit Unit)
    have h := run_size _ new_size_zero hr
    rw [hc n, hd n] at h
    rw [hr]
    simp only [Option.map_some', EntityMap.size, Option.some.injEq]
    omega
  refine ⟨hc _, hd _, hsize _ (by norm_num), by norm_num⟩

/-- C14 (amended): `size()` of a fresh registry is `0`; after a sequence of calls with
`c` creates and `d` destroys it is `(c - d) mod 2 ^ 64`, which is `c - d` whenever
`d ≤ c` and `c - d < 2 ^ 64`; a call that is neither a create nor a destroy leaves it
unchanged. -/
theorem size_counts [Inhabited Sprite] [Inhabited FloatRect] (cs : List Call) (n : Nat)
    (m m1 : EntityMap Sprite FloatRect) (call : Call) (hs : List Entity)
    (hrun : ((EntityMap.new : EntityMap Sprite FloatRect).run cs).map
      (fun r => r.1.size) = some n)
    (hcall : m.call call = some (m1, hs))
    (hnc : call.is_create = false) (hnd : call.is_destroy = false) :
    (EntityMap.new : EntityMap Sprite FloatRect).size = 0 ∧
    (n : Int) =
      ((cs.countP Call.is_create : Int) - (cs.countP Call.is_destroy : Int)) % 2 ^ 64 ∧
    (cs.countP Call.is_destroy ≤ cs.countP Call.is_create →
      cs.countP Call.is_create - cs.countP Call.is_destroy < 2 ^ 64 →
      n = cs.countP Call.is_create - cs.countP Call.is_destroy) ∧
    m1.size = m.size := by
  simp only [Option.map_eq_some'] at hrun
  obtain ⟨⟨m2, hs2⟩, hr, hn⟩ := hrun
  have hn : m2.size_ = n := hn
  have h := run_size cs new_size_zero hr
  rw [hn] at h
  simp only [Nat.zero_add] at h
  have hp : (2 : Int) ^ 64 = 18446744073709551616 := by norm_num
  have hq : (2 : Nat) ^ 64 = 18446744073709551616 := by norm_num
  refine ⟨rfl, ?_, ?_, ?_⟩
  · rw [hp]; exact h
  · intro hle hlt
    rw [hq] at hlt
    omega
  · have := call_size hcall
    simpa [hnc, hnd, EntityMap.size] using this

/-- An instance on the run `session` and on a tag lookup on a fresh registry. -/
theorem size_counts_witness :
    (((EntityMap.new : EntityMap Unit Unit).run session).map (fun r => r.1.size) = some 2 ∧
      (EntityMap.new : EntityMap Unit Unit).call (Call.get_tagged_entity "player") =
        some (((EntityMap.new : EntityMap Unit Unit).get_tagged_entity "player").1, []) ∧
      (Call.get_tagged_entity "player").is_create = false ∧
      (Call.get_tagged_entity "player").is_destroy = false) ∧
    ((EntityMap.new : EntityMap Unit Unit).size = 0 ∧
    ((2 : Nat) : Int) =
      ((session.countP Call.is_create : Int) - (session.countP Call.is_destroy : Int)) % 2 ^ 64 ∧
    (session.countP Call.is_destroy ≤ session.countP Call.is_create →
      session.countP Call.is_create - session.countP Call.is_destroy < 2 ^ 64 →
      2 = session.countP Call.is_create - session.countP Call.is_destroy) ∧
    ((EntityMap.new : EntityMap Unit Unit).get_tagged_entity "player").1.size =
      (EntityMap.new : EntityMap Unit Unit).size) :=
  ⟨⟨rfl, rfl, rfl, rfl⟩,
    size_counts session 2 EntityMap.new
      ((EntityMap.new : EntityMap Unit Unit).get_tagged_entity "player").1
      (Call.get_tagged_entity "player") [] rfl rfl rfl rfl⟩

/-- C15 (counterexample): on a registry whose `SpriteSystem` holds one attached entity, a
second `add_system<SpriteSystem>()` returns that same system and leaves it stored: it
still has one instance and still has the entity. -/
theorem second_add_system_keeps_host :
    ∃ m0 m sys, before_wrap = some m0 ∧ registered_twice = some (m, some sys) ∧
      m0.systems_ TypeIndex.SpriteSystem = some (some sys) ∧
      m.systems_ TypeIndex.SpriteSystem = some (some sys) ∧
      sys.count = 1 ∧ sys.has_entity entityA = some true := by
  exact ⟨_, _, _, rfl, rfl, rfl, rfl, rfl, rfl⟩

/-- C15 (amended): when the type already has an entry in `systems_`, `add_system<T>()`
leaves the registry as it is and returns the pointer stored there, the same one
`get_system<T>()` returns: `emplace` does not replace the entry of an existing key. -/
theorem add_system_existing (m : EntityMap Sprite FloatRect) (k : TypeIndex)
    (p : Option (System Sprite FloatRect)) (hk : m.systems_ k = some p) :
    m.add_system k = (m, p) ∧ (m.get_system k) = (m, p) := by
  simp [EntityMap.add_system, EntityMap.get_system, hk]

/-- An instance on `never_attached`, for its `SpriteSystem`. -/
theorem add_system_existing_witness :
    never_attached.systems_ TypeIndex.SpriteSystem =
        some (some (System.make TypeIndex.SpriteSystem)) ∧
    (never_attached.add_system TypeIndex.SpriteSystem =
        (never_attached, some (System.make TypeIndex.SpriteSystem)) ∧
      never_attached.get_system TypeIndex.SpriteSystem =
        (never_attached, some (System.make TypeIndex.SpriteSystem))) :=
  ⟨rfl, add_system_existing never_attached TypeIndex.SpriteSystem
    (some (System.make TypeIndex.SpriteSystem)) rfl⟩

/-- C16 (the code departs from it): the 65535th `create()` on a fresh registry returns
id `65535`, while `lookup_` has the `65535` entries `0 .. 65534`: with that handle the
subscript in `attach`, `get`, `has_component` and `detach` is out of bounds on every
store; `setup_dod` succeeds for `65534` entities and overruns the table for `65535`. -/
theorem last_id_outside_lookup [Inhabited T] [Inhabited Sprite] [Inhabited FloatRect]
    (s : ComponentData T) :
    (((EntityMap.new : EntityMap Sprite FloatRect).create_n 65534).create).2 =
      Entity.mk 65535 65535 0 ∧
    s.attach (Entity.mk 65535 65535 0) = none ∧
    s.get (Entity.mk 65535 65535 0) = none ∧
    s.has_component (Entity.mk 65535 65535 0) = none ∧
    s.detach (Entity.mk 65535 65535 0) = none ∧
    (∃ m, (EntityMap.new : EntityMap Sprite FloatRect).setup_dod 65534 = some m) ∧
    (EntityMap.new : EntityMap Sprite FloatRect).setup_dod 65535 = none := by
  refine ⟨?_, ?_, ?_, ?_, ?_, ?_, ?_⟩
  · rw [create_n_last]
    simp [kth_handle]
  · simp [ComponentData.attach, UINT16_MAX]
  · simp [ComponentData.get, UINT16_MAX]
  · simp [ComponentData.has_component, UINT16_MAX]
  · simp [ComponentData.detach, ComponentData.get, UINT16_MAX]
  · obtain ⟨m, hm, -, -⟩ := setup_dod_within Sprite FloatRect 65534 (by omega)
    exact ⟨m, hm⟩
  · exact setup_dod_overrun 65534 rfl

/-- C17: when `has_component(h)` is true and the index recorded for `h` is `i`, then
`i` is a position of `instances`, `detach(h)` succeeds, `instances` gets one element
shorter, position `i` (when it is not the last one) holds the element that was last, and
every other remaining position holds the element it held before. -/
theorem detach_swap_remove (s : ComponentData T) (h : Entity) (i : Nat)
    (hc : s.has_component h = some true) (hi : (s.lookup_ h.id).index = i) :
    i < s.instances.length ∧
    ∃ s1, s.detach h = some s1 ∧
      s1.instances.length = s.instances.length - 1 ∧
      (i < s.instances.length - 1 →
        s1.instances[i]? = s.instances[s.instances.length - 1]?) ∧
      (∀ j, j < s.instances.length - 1 → j ≠ i → s1.instances[j]? = s.instances[j]?) := by
  obtain ⟨hid, hg, hlt, hs⟩ := (has_component_true_iff s h).1 hc
  have hd := detach_eq s h hc
  rw [hi] at hlt hd
  refine ⟨hlt, _, hd, ?_, ?_, ?_⟩
  · simp [swap_length]
  · intro hlt2
    simp only []
    rw [swap_dropLast_get _ _ _ hlt hlt2, if_pos rfl]
  · intro j hj hne
    simp only []
    rw [swap_dropLast_get _ _ _ hlt hj, if_neg hne]

/-- An instance on `three_attached`, for the handle of id `1` at position `0`. -/
theorem detach_swap_remove_witness :
    (three_attached.has_component (Entity.mk 1 65535 0) = some true ∧
      (three_attached.lookup_ 1).index = 0) ∧
    (0 < three_attached.instances.length ∧
      ∃ s1, three_attached.detach (Entity.mk 1 65535 0) = some s1 ∧
        s1.instances.length = three_attached.instances.length - 1 ∧
        (0 < three_attached.instances.length - 1 →
          s1.instances[0]? =
            three_attached.instances[three_attached.instances.length - 1]?) ∧
        (∀ j, j < three_attached.instances.length - 1 → j ≠ 0 →
          s1.instances[j]? = three_attached.instances[j]?)) :=
  ⟨⟨by decide, by decide⟩,
    detach_swap_remove three_attached (Entity.mk 1 65535 0) 0 (by decide) (by decide)⟩

/-- C18 (the code departs from it): the store reached by `attach(A)`, `attach(B)`,
`detach(A)`, each call within the stated discipline, has one instance while the entry of
id `2` records the index `1`: not the sentinel, not smaller than the length, and no
element sits at that position. -/
theorem invariant_broken_by_detach :
    ∃ s, attach_attach_detach = some s ∧ Disciplined s ∧
      s.instances.length = 1 ∧ (s.lookup_ 2).index = 1 ∧
      (s.lookup_ 2).index ≠ 65535 ∧ ¬ (s.lookup_ 2).index < s.instances.length ∧
      s.instances[(s.lookup_ 2).index]? = none := by
  refine ⟨_, rfl, Disciplined.detach entityA (Disciplined.attach entityB
    (Disciplined.attach entityA Disciplined.new rfl rfl) rfl rfl) rfl rfl, ?_, ?_, ?_, ?_, ?_⟩
  · rfl
  · rfl
  · decide
  · decide
  · rfl

/-- C19: when `has_component(h)` is true with recorded index `p` and the store holds
`n` instances, `n + 2 ≤ 65535`, a second `attach(h)` succeeds; the vector then has
`n + 1` elements, the first `n` (the one at `p` among them) unchanged; the index
recorded for `h.id` is `n`, which differs from `p`; the other table entries are
unchanged; and `get(h)` is the address of position `n`, which holds the new element. -/
theorem double_attach_leaks [Inhabited T] (s : ComponentData T) (h : Entity) (p : Nat)
    (hn : s.instances.length + 2 ≤ 65535)
    (hc : s.has_component h = some true) (hp : (s.lookup_ h.id).index = p) :
    p < s.instances.length ∧
    ∃ s1 e, s.attach h = some (s1, e) ∧
      s1.instances.length = s.instances.length + 1 ∧
      s1.instances[p]? = s.instances[p]? ∧
      (∀ i, i < s.instances.length → s1.instances[i]? = s.instances[i]?) ∧
      (s1.lookup_ h.id).index = s.instances.length ∧
      (s1.lookup_ h.id).index ≠ p ∧
      (∀ k, k ≠ h.id → s1.lookup_ k = s.lookup_ k) ∧
      s1.get h = some (Ptr.elem s.instances.length) ∧
      s1.deref (Ptr.elem s.instances.length) = some default := by
  obtain ⟨hid, hg, hlt, hs⟩ := (has_component_true_iff s h).1 hc
  rw [hp] at hlt
  have hn2 : s.instances.length < UINT16_MAX := by unfold UINT16_MAX; omega
  refine ⟨hlt, _, _, attach_eq s h hn2 hid, ?_, ?_, ?_, ?_, ?_, ?_, ?_, ?_⟩
  · simp
  · simp [List.getElem?_append_left hlt]
  · intro i hi
    simp [List.getElem?_append_left hi]
  · simp
  · simp only [Function.update_same]
    omega
  · intro k hk
    simp [Function.update, hk]
  · simp [ComponentData.get, hid, hn2]
  · simp [ComponentData.deref]

/-- An instance on `one_attached`, for the handle it holds at position `0`. -/
theorem double_attach_leaks_witness :
    (one_attached.instances.length + 2 ≤ 65535 ∧
      one_attached.has_component (Entity.mk 3 0 0) = some true ∧
      (one_attached.lookup_ 3).index = 0) ∧
    (0 < one_attached.instances.length ∧
      ∃ s1 e, one_attached.attach (Entity.mk 3 0 0) = some (s1, e) ∧
        s1.instances.length = one_attached.instances.length + 1 ∧
        s1.instances[0]? = one_attached.instances[0]? ∧
        (∀ i, i < one_attached.instances.length →
          s1.instances[i]? = one_attached.instances[i]?) ∧
        (s1.lookup_ 3).index = one_attached.instances.length ∧
        (s1.lookup_ 3).index ≠ 0 ∧
        (∀ k, k ≠ 3 → s1.lookup_ k = one_attached.lookup_ k) ∧
        s1.get (Entity.mk 3 0 0) = some (Ptr.elem one_attached.instances.length) ∧
        s1.deref (Ptr.elem one_attached.instances.length) = some default) :=
  ⟨⟨by decide, by decide, by decide⟩,
    double_attach_leaks one_attached (Entity.mk 3 0 0) 0 (by decide) (by decide) (by decide)⟩

/-- C20: a freshly constructed store has no instances, and for every handle with an id
below `65535`, whatever its generation, `get` is `nullptr` and `has_component` is
false. -/
theorem new_store_empty (h : Entity) (hid : h.id < 65535) :
    (ComponentData.new : ComponentData T).instances.length = 0 ∧
    (ComponentData.new : ComponentData T).get h = some Ptr.nullptr ∧
    (ComponentData.new : ComponentData T).has_component h = some false := by
  have hid2 : h.id < UINT16_MAX := hid
  simp [ComponentData.new, ComponentData.get, ComponentData.has_component, hid2]

/-- An instance for a handle of id `5` with the generation `65535` of the constructor. -/
theorem new_store_empty_witness :
    5 < 65535 ∧
    ((ComponentData.new : ComponentData Unit).instances.length = 0 ∧
      (ComponentData.new : ComponentData Unit).get (Entity.mk 5 0 65535) =
        some Ptr.nullptr ∧
      (ComponentData.new : ComponentData Unit).has_component (Entity.mk 5 0 65535) =
        some false) :=
  ⟨by decide, @new_store_empty Unit (Entity.mk 5 0 65535) (by decide)⟩

end Claims2

/-! ## The presence check and the narrowing of the index -/

section Claims3

variable {T : Type}

/-- C21: when `has_component(h)` is true, in any state of the store, the index recorded
for `h.id` is smaller than the length of `instances` and is not the sentinel `65535`; so
`get(h)` is the address of that position, not `nullptr`, and reading it gives an element
of `instances`. -/
theorem has_component_safe (s : ComponentData T) (h : Entity)
    (hc : s.has_component h = some true) :
    h.id < 65535 ∧
    (s.lookup_ h.id).index < s.instances.length ∧
    (s.lookup_ h.id).index ≠ 65535 ∧
    s.get h = some (Ptr.elem (s.lookup_ h.id).index) ∧
    s.get h ≠ some Ptr.nullptr ∧
    ∃ v, s.deref (Ptr.elem (s.lookup_ h.id).index) = some v ∧
      s.instances[(s.lookup_ h.id).index]? = some v := by
  obtain ⟨hid, hg, hlt, hs⟩ := (has_component_true_iff s h).1 hc
  have hget : s.get h = some (Ptr.elem (s.lookup_ h.id).index) := by
    simp [ComponentData.get, hid, hg, hs]
  have hs2 : (s.lookup_ h.id).index < 65535 := hs
  refine ⟨hid, hlt, by omega, hget, ?_, s.instances[(s.lookup_ h.id).index], ?_, ?_⟩
  · rw [hget]
    simp
  · simp [ComponentData.deref, hlt]
  · simp [hlt]

/-- An instance on `one_attached`, for the handle it holds. -/
theorem has_component_safe_witness :
    one_attached.has_component (Entity.mk 3 0 0) = some true ∧
    (3 < 65535 ∧
      (one_attached.lookup_ 3).index < one_attached.instances.length ∧
      (one_attached.lookup_ 3).index ≠ 65535 ∧
      one_attached.get (Entity.mk 3 0 0) = some (Ptr.elem (one_attached.lookup_ 3).index) ∧
      one_attached.get (Entity.mk 3 0 0) ≠ some Ptr.nullptr ∧
      ∃ v, one_attached.deref (Ptr.elem (one_attached.lookup_ 3).index) = some v ∧
        one_attached.instances[(one_attached.lookup_ 3).index]? = some v) :=
  ⟨by decide, has_component_safe one_attached (Entity.mk 3 0 0) (by decide)⟩

/-- C22: on a store with `n` instances `attach(h)`, for an id inside the table, appends
an element and records and returns the index `n mod 65536`; when `n = 65535` that index
is the sentinel, so right after the call `get(h)` is `nullptr` and `has_component(h)` is
false although `instances` has grown. -/
theorem attach_index_narrowed [Inhabited T] (s : ComponentData T) (h : Entity)
    (hid : h.id < 65535) :
    ∃ s1 e, s.attach h = some (s1, e) ∧
      e.index = s.instances.length % 65536 ∧
      (s1.lookup_ h.id).index = s.instances.length % 65536 ∧
      s1.instances.length = s.instances.length + 1 ∧
      (s.instances.length = 65535 →
        (s1.lookup_ h.id).index = 65535 ∧
        s1.get h = some Ptr.nullptr ∧ s1.has_component h = some false) := by
  have hid2 : h.id < UINT16_MAX := hid
  refine ⟨{ instances := s.instances ++ [default]
            lookup_ := Function.update s.lookup_ h.id
              { id := h.id, index := s.instances.length % 65536,
                generation := h.generation } },
    { id := h.id, index := s.instances.length % 65536, generation := h.generation },
    ?_, rfl, ?_, ?_, ?_⟩
  · simp [ComponentData.attach, hid2, U16]
  · simp
  · simp
  · intro hn
    simp [ComponentData.get, ComponentData.has_component, hid, hn, UINT16_MAX]

/-- An instance on `full_store`, which holds `65535` instances, for a handle of id `5`. -/
theorem attach_index_narrowed_witness :
    5 < 65535 ∧
    ∃ s1 e, full_store.attach (Entity.mk 5 65535 0) = some (s1, e) ∧
      e.index = full_store.instances.length % 65536 ∧
      (s1.lookup_ 5).index = full_store.instances.length % 65536 ∧
      s1.instances.length = full_store.instances.length + 1 ∧
      (full_store.instances.length = 65535 →
        (s1.lookup_ 5).index = 65535 ∧
        s1.get (Entity.mk 5 65535 0) = some Ptr.nullptr ∧
        s1.has_component (Entity.mk 5 65535 0) = some false) :=
  ⟨by decide, attach_index_narrowed full_store (Entity.mk 5 65535 0) (by decide)⟩

end Claims3

end ecs
